import Mathlib

/-!
Shallow embedding of `src/PhishingDetector/phish_detector.py` and proofs of
the specification claims about it.

Modelling conventions:
* Python strings are `List Char` (`Str`); `str.strip()` is `pyStrip`,
  `str.lower()` is `pyLower`, `len` is `List.length`.
* `round(x, 2)` on Python numbers is `pyRound2`, banker's rounding carried
  out in exact rational arithmetic.
* The fitted `TfidfVectorizer`/`RandomForestClassifier` pair produced by the
  training section is external library state; it is abstracted as a
  `TrainedModel`: `predict` is `model.predict(vectorizer.transform([t]))[0]`
  and `probaPhish` is the phishing component of
  `model.predict_proba(vectorizer.transform([t]))[0]`, a two-class
  probability vector `(1 - p, p)` whose entries lie in `[0, 1]` (guaranteed
  by sklearn; the class set is exactly the two validated label values).
* The sqlite connection/cursor pair is a `Store` value threaded through the
  interactive loop; `INSERT` statements append to its lists, a possible
  `sqlite3.Error` on an insert is modelled by the boolean oracle `dbOk`
  (`true` = the write succeeds).
* Console output is modelled as a trace of `Output` events; the event
  `Output.analyzed t` is instrumentation marking that `analyze_email` was
  invoked on `t` (the script prints no such line; the event makes the calls
  of the prediction service observable in the trace).
* `input()` is modelled by consuming the next element of a script of lines;
  an exhausted script at the top-of-loop `input()` is the `EOFError` that
  escapes the `while` loop (nothing catches it there), while an exhausted
  script at the feedback/label prompts is caught by the loop's
  `except Exception` handler, like any other exception raised inside `try`.
-/

namespace PhishDetector

/-- Python strings, modelled as lists of characters. -/
abbrev Str := List Char

/-- Python `str.lower()`. -/
def pyLower (s : Str) : Str := s.map Char.toLower

/-- Python `str.strip()`: remove whitespace from both ends. -/
def pyStrip (s : Str) : Str :=
  ((s.dropWhile Char.isWhitespace).reverse.dropWhile Char.isWhitespace).reverse

/-- The `'quit'` command token. -/
def quitTok : Str := "quit".toList

/-- The `'report'` command token. -/
def reportTok : Str := "report".toList

/-- The negative-confirmation token `'n'`. -/
def nTok : Str := "n".toList

/-- The `'phishing'` label value. -/
def phishTok : Str := "phishing".toList

/-- The `'legitimate'` label value. -/
def legitTok : Str := "legitimate".toList

/-- Python `round(x)` (round half to even), on exact rationals. -/
def pyRound (x : ℚ) : ℤ :=
  let f := ⌊x⌋
  let r := x - f
  if r < 1/2 then f
  else if 1/2 < r then f + 1
  else if f % 2 = 0 then f else f + 1

/-- Python `round(x, 2)`: round to two decimal places. -/
def pyRound2 (x : ℚ) : ℚ := (pyRound (x * 100) : ℚ) / 100

/-- The two label values occurring in a validated dataset; `model.predict`
returns one of the label values seen at fit time, hence one of these. -/
inductive Label where
  | phishing
  | legitimate
deriving DecidableEq

/-- The label value as the Python string returned by `model.predict`. -/
def Label.toStr : Label → Str
  | .phishing => phishTok
  | .legitimate => legitTok

/-- Abstraction of the fitted `(vectorizer, model)` pair built in section 2
of the script (external sklearn state, read-only after fitting).
`predict t` is `model.predict(vectorizer.transform([t]))[0]` and
`probaPhish t` the phishing entry of
`model.predict_proba(vectorizer.transform([t]))[0]`; sklearn guarantees the
entries of the probability vector lie in `[0, 1]`. -/
structure TrainedModel where
  predict : Str → Label
  probaPhish : Str → ℚ
  probaPhish_mem : ∀ s, 0 ≤ probaPhish s ∧ probaPhish s ≤ 1

/-- `model.predict_proba(vec)[0].max()`: the two-class probability vector is
`(1 - p, p)`, so its maximum is `max p (1 - p)`. -/
def maxProba (m : TrainedModel) (s : Str) : ℚ :=
  max (m.probaPhish s) (1 - m.probaPhish s)

/-- The two `ValueError`s raised by `analyze_email` (the spec's
EmptyInputError and TooLongError). -/
inductive AnalyzeError where
  | emptyInput
  | tooLong
deriving DecidableEq

instance {ε α : Type} [DecidableEq ε] [DecidableEq α] :
    DecidableEq (Except ε α)
  | .error e1, .error e2 =>
    if h : e1 = e2 then .isTrue (by rw [h])
    else .isFalse (by intro hc; cases hc; exact h rfl)
  | .error _, .ok _ => .isFalse (by intro hc; cases hc)
  | .ok _, .error _ => .isFalse (by intro hc; cases hc)
  | .ok a1, .ok a2 =>
    if h : a1 = a2 then .isTrue (by rw [h])
    else .isFalse (by intro hc; cases hc; exact h rfl)

/-- `analyze_email(email)`: validate, then transform and classify.
`if not isinstance(email, str) or not email.strip(): raise ValueError`
(the `isinstance` test is always true in the typed embedding), then
`if len(email) > 1000: raise ValueError`, then
`return model.predict(vec)[0], round(proba * 100, 2)` where
`proba = model.predict_proba(vec)[0].max()`. -/
def analyze_email (m : TrainedModel) (email : Str) :
    Except AnalyzeError (Label × ℚ) :=
  if pyStrip email = [] then .error .emptyInput
  else if 1000 < email.length then .error .tooLong
  else .ok (m.predict email, pyRound2 (maxProba m email * 100))

/-- A row of the `detections` relation (id and timestamp are assigned by the
store and are not part of the data the program writes). -/
structure DetectionRecord where
  email_text : Str
  prediction : Str
  confidence : ℚ
deriving DecidableEq

/-- A row of the `false_positives` relation. -/
structure FeedbackRecord where
  email_text : Str
  actual_label : Str
deriving DecidableEq

/-- The sqlite connection/cursor state: the two append-only relations plus
the connection-lifecycle counters used to state the acquisition/release
claims (`connOpen` is whether the connection is currently open, `openCount`
how many times `sqlite3.connect` ran, `closeCount` how many times
`conn.close()` ran). -/
structure Store where
  connOpen : Bool
  openCount : Nat
  closeCount : Nat
  detections : List DetectionRecord
  false_positives : List FeedbackRecord
deriving DecidableEq

/-- The store right after `sqlite3.connect('phishing_detector.db')` and the
two `CREATE TABLE IF NOT EXISTS` statements: connection acquired once,
never closed yet, both relations as found (empty in a fresh database). -/
def initStore : Store :=
  { connOpen := true, openCount := 1, closeCount := 0
    detections := [], false_positives := [] }

/-- `conn.close()`. -/
def closeConn (st : Store) : Store :=
  { st with connOpen := false, closeCount := st.closeCount + 1 }

/-- Append to the `false_positives` relation
(`INSERT INTO false_positives ... ; conn.commit()`). -/
def addFeedback (st : Store) (r : FeedbackRecord) : Store :=
  { st with false_positives := st.false_positives ++ [r] }

/-- The console/trace events of one session, plus the instrumentation event
`analyzed` marking each invocation of `analyze_email`. -/
inductive Output where
  | analyzed (email : Str)
  | result (prediction : Str) (confidence : ℚ)
  | reportCounts (dets fps : Nat)
  | errEmpty
  | errShort
  | errCaught
  | warnSkipEmpty
  | warnDbError
  | feedbackSaved
  | invalidLabel
deriving DecidableEq

/-- `save_to_db(email, prediction, confidence)`:
`if not email or not prediction: print warning; return`, then
`try: INSERT INTO detections ...; conn.commit() except sqlite3.Error: print
warning`. The oracle `dbOk` tells whether the insert raises. Returns the
new store and the warnings printed; the function never raises (it is total
and returns no error value). -/
def save_to_db (dbOk : Bool) (email prediction : Str) (confidence : ℚ)
    (st : Store) : Store × List Output :=
  if email = [] ∨ prediction = [] then (st, [.warnSkipEmpty])
  else if dbOk then
    ({ st with detections :=
        st.detections ++ [⟨email, prediction, confidence⟩] }, [])
  else (st, [.warnDbError])

/-- How the `while` loop was left: `break` on the quit command, or an
uncaught exception (`EOFError` from the top-of-loop `input()`) escaping it. -/
inductive ExitReason where
  | quit
  | inputExhausted
deriving DecidableEq

/-- Result of running the interactive loop: the final store, the trace of
events, and how the loop ended. -/
structure SessionResult where
  store : Store
  output : List Output
  exit : ExitReason
deriving DecidableEq

/-- Prefix additional output events onto a session result. -/
def SessionResult.withOut (r : SessionResult) (out : List Output) :
    SessionResult :=
  ⟨r.store, out ++ r.output, r.exit⟩

/-- The corrected-label prompt reached when the feedback answer was `'n'`:
`actual_label = input(...).strip().lower()`; a recognized label is inserted
into `false_positives` (the insert raising — `dbOk = false` — is caught by
the loop's `except Exception`), an unrecognized one only prints the invalid-
label message. `ih` is the rest of the loop; an exhausted script here is an
`EOFError` raised inside `try`, caught by `except Exception`, after which
the next iteration's `input()` ends the loop. `st1` is the store after
`save_to_db`, `out0` the events of the iteration so far. -/
def labelStep (dbOk : Bool) (ih : List Str → Store → SessionResult)
    (email : Str) (out0 : List Output) (st1 : Store) :
    List Str → SessionResult
  | [] => ⟨st1, out0 ++ [.errCaught], .inputExhausted⟩
  | lab :: rest3 =>
    let actual := pyLower (pyStrip lab)
    if actual = phishTok ∨ actual = legitTok then
      if dbOk then
        (ih rest3 (addFeedback st1 ⟨email, actual⟩)).withOut
          (out0 ++ [.feedbackSaved])
      else (ih rest3 st1).withOut (out0 ++ [.errCaught])
    else (ih rest3 st1).withOut (out0 ++ [.invalidLabel])

/-- The feedback prompt after a successful prediction and `save_to_db`:
`feedback = input(...).lower()`; only the answer `'n'` leads to the
corrected-label prompt, any other answer returns to the top of the loop.
An exhausted script here is an `EOFError` inside `try`, caught by
`except Exception`. -/
def feedbackStep (dbOk : Bool) (ih : List Str → Store → SessionResult)
    (email : Str) (out0 : List Output) (st1 : Store) :
    List Str → SessionResult
  | [] => ⟨st1, out0 ++ [.errCaught], .inputExhausted⟩
  | fb :: rest2 =>
    if pyLower fb = nTok then labelStep dbOk ih email out0 st1 rest2
    else (ih rest2 st1).withOut out0

/-- One iteration of the interactive loop on the line just read:
`email = input("Enter email text: ").strip()`, then the quit / report /
empty / too-short checks, then inside `try`: `analyze_email` (a raised
`ValueError` is caught by `except Exception`), printing the result,
`save_to_db`, and the feedback phase. `ih` runs the remaining iterations. -/
def lineStep (m : TrainedModel) (dbOk : Bool)
    (ih : List Str → Store → SessionResult) (line : Str) (rest : List Str)
    (st : Store) : SessionResult :=
  let email := pyStrip line
  if pyLower email = quitTok then ⟨st, [], .quit⟩
  else if pyLower email = reportTok then
    (ih rest st).withOut
      [.reportCounts st.detections.length st.false_positives.length]
  else if email = [] then (ih rest st).withOut [.errEmpty]
  else if email.length < 10 then (ih rest st).withOut [.errShort]
  else
    match analyze_email m email with
    | .error _ => (ih rest st).withOut [.analyzed email, .errCaught]
    | .ok (prediction, confidence) =>
      let saved := save_to_db dbOk email (Label.toStr prediction)
        confidence st
      feedbackStep dbOk ih email
        ([.analyzed email, .result (Label.toStr prediction) confidence] ++
          saved.2) saved.1 rest

/-- One iteration of the `while True` loop: read the next line (an
exhausted script at the top-of-loop `input()` is the uncaught `EOFError`
that ends the loop) and process it with `lineStep`. -/
def runLoopStep (m : TrainedModel) (dbOk : Bool)
    (ih : List Str → Store → SessionResult) :
    List Str → Store → SessionResult
  | [], st => ⟨st, [], .inputExhausted⟩
  | line :: rest, st => lineStep m dbOk ih line rest st

/-- The interactive `while True` loop of section 6, over a script of input
lines, as fuel-indexed iteration: the fuel bounds the number of remaining
iterations. Every iteration consumes at least one script line, so any fuel
of at least the script length gives the loop's behaviour
(`runLoopF_id_of_le`); out of fuel the script is necessarily empty and the
result is the same uncaught `EOFError` exit. -/
def runLoopF (m : TrainedModel) (dbOk : Bool) :
    Nat → List Str → Store → SessionResult :=
  Nat.rec (motive := fun _ => List Str → Store → SessionResult)
    (fun _ st => ⟨st, [], .inputExhausted⟩)
    (fun _ ih => runLoopStep m dbOk ih)

/-- The interactive `while True` loop on a script of input lines: iterate
with fuel equal to the script length, which always suffices. -/
def runLoop (m : TrainedModel) (dbOk : Bool) (inputs : List Str)
    (st : Store) : SessionResult :=
  runLoopF m dbOk inputs.length inputs st

/-- The whole interactive phase: acquire the connection
(`sqlite3.connect`), run the loop, and reach `conn.close()` only when the
loop returned normally (`break` on quit); an exception escaping the loop
propagates past the close. -/
def runSession (m : TrainedModel) (dbOk : Bool) (inputs : List Str) :
    SessionResult :=
  let r := runLoop m dbOk inputs initStore
  match r.exit with
  | .quit => ⟨closeConn r.store, r.output, .quit⟩
  | .inputExhausted => r

/-- The loaded CSV, as far as validation looks at it: the column names, and
the values of the `label` and `text` columns. -/
structure RawCsv where
  cols : List Str
  texts : List Str
  labels : List Str

/-- The data-validation block of section 1:
`if not all(col in data.columns for col in ['text', 'label']): raise`;
`if not all(label in ['phishing', 'legitimate'] for label in
data['label'].unique()): raise` (checking the distinct values is
equivalent to checking every value). The `len(data) < 10` case only prints
a warning and blocks nothing. -/
def validateData (d : RawCsv) : Except Str Unit :=
  if ¬ ("text".toList ∈ d.cols ∧ "label".toList ∈ d.cols) then
    .error "CSV must contain text and label columns".toList
  else if ¬ (∀ l ∈ d.labels, l = phishTok ∨ l = legitTok) then
    .error "Labels must be phishing or legitimate".toList
  else .ok ()

/-- Sections 1–2 of the script: load-and-validate, then (only if validation
passed) the whole `train_test_split` / `fit` stage, abstracted as an
arbitrary function `train` into the published model type. A `ValueError`
from validation is caught by `except Exception`, which prints the message
and calls `exit()` — the process aborts with that error before any split or
fit runs. -/
def runTraining {M : Type} (train : RawCsv → M) (d : RawCsv) :
    Except Str M :=
  match validateData d with
  | .error e => .error e
  | .ok _ => .ok (train d)

/-- A concrete stand-in model used for witnesses: every text is classified
as phishing with probability 3/4. -/
def constModel : TrainedModel where
  predict := fun _ => .phishing
  probaPhish := fun _ => 3/4
  probaPhish_mem := fun _ => by norm_num

/-- The invariant of every `DetectionRecord` the interactive loop writes:
the stored text is already stripped, its length is between the loop's
10-character minimum and `analyze_email`'s 1000-character maximum, and the
prediction is one of the two label values. -/
def goodDetection (r : DetectionRecord) : Prop :=
  pyStrip r.email_text = r.email_text ∧
  10 ≤ r.email_text.length ∧ r.email_text.length ≤ 1000 ∧
  (r.prediction = phishTok ∨ r.prediction = legitTok)

instance (r : DetectionRecord) : Decidable (goodDetection r) := by
  unfold goodDetection
  infer_instance

/-- The connection-lifecycle fields are the same in both stores. -/
def ConnEq (st st' : Store) : Prop :=
  st'.connOpen = st.connOpen ∧ st'.openCount = st.openCount ∧
  st'.closeCount = st.closeCount

/-- Every detection of `st'` was already in `st` or satisfies
`goodDetection`. -/
def NewDetGood (st st' : Store) : Prop :=
  ∀ r ∈ st'.detections, r ∈ st.detections ∨ goodDetection r

/-- Every `analyzed` event in the trace carries a stripped text of length
at least 10. -/
def AnalyzedGood (out : List Output) : Prop :=
  ∀ t, Output.analyzed t ∈ out → 10 ≤ t.length ∧ pyStrip t = t

/-- What the loop guarantees relative to the store it started from. -/
def LoopInv (st : Store) (r : SessionResult) : Prop :=
  ConnEq st r.store ∧ NewDetGood st r.store ∧ AnalyzedGood r.output

/-! ### Facts about `dropWhile` and `pyStrip` -/

theorem dropWhile_head_false {α : Type} (p : α → Bool) :
    ∀ (l : List α) (c : α) (cs : List α), l.dropWhile p = c :: cs →
      p c = false := by
  intro l
  induction l with
  | nil => intro c cs h; simp [List.dropWhile] at h
  | cons a t ih =>
    intro c cs h
    rw [List.dropWhile_cons] at h
    by_cases hp : p a = true
    · rw [if_pos hp] at h
      exact ih c cs h
    · rw [if_neg hp] at h
      cases h
      simpa using hp

theorem dropWhile_dropWhile {α : Type} (p : α → Bool) (l : List α) :
    (l.dropWhile p).dropWhile p = l.dropWhile p := by
  induction l with
  | nil => rfl
  | cons a t ih =>
    rw [List.dropWhile_cons]
    by_cases hp : p a = true
    · rw [if_pos hp]; exact ih
    · rw [if_neg hp, List.dropWhile_cons, if_neg hp]

theorem getLast?_dropWhile {α : Type} (p : α → Bool) :
    ∀ l : List α, l.dropWhile p = [] ∨
      (l.dropWhile p).getLast? = l.getLast? := by
  intro l
  induction l with
  | nil => exact Or.inl rfl
  | cons a t ih =>
    rw [List.dropWhile_cons]
    by_cases hp : p a = true
    · rw [if_pos hp]
      rcases ih with h | h
      · exact Or.inl h
      · by_cases ht : t.dropWhile p = []
        · exact Or.inl ht
        · refine Or.inr ?_
          have htne : t ≠ [] := by
            intro he; rw [he] at ht; exact ht rfl
          rcases t with _ | ⟨b, t'⟩
          · exact absurd rfl htne
          · rw [List.getLast?_cons_cons]
            exact h
    · rw [if_neg hp]
      exact Or.inr rfl

theorem length_dropWhile_le {α : Type} (p : α → Bool) (l : List α) :
    (l.dropWhile p).length ≤ l.length := by
  induction l with
  | nil => simp
  | cons a t ih =>
    rw [List.dropWhile_cons]
    by_cases hp : p a = true
    · rw [if_pos hp]; simp; omega
    · rw [if_neg hp]

theorem dropWhile_stripped {α : Type} (p : α → Bool) (u : List α)
    (hu : u.dropWhile p = u) :
    ((u.reverse.dropWhile p).reverse).dropWhile p =
      (u.reverse.dropWhile p).reverse := by
  rcases h : (u.reverse.dropWhile p).reverse with _ | ⟨c, cs⟩
  · rfl
  · have hw : u.reverse.dropWhile p = cs.reverse ++ [c] := by
      have h2 := congrArg List.reverse h
      rw [List.reverse_reverse] at h2
      rw [h2, List.reverse_cons]
    have hlast : (u.reverse.dropWhile p).getLast? = some c := by
      rw [hw]; exact List.getLast?_concat _
    have hchead : u.head? = some c := by
      rcases getLast?_dropWhile p u.reverse with hnil | heq
      · rw [hnil] at hw
        exact absurd hw.symm (by simp)
      · rw [heq, List.getLast?_reverse] at hlast
        exact hlast
    rcases u with _ | ⟨a, u'⟩
    · simp at hchead
    · have hac : a = c := by simpa using hchead
      subst hac
      rw [List.dropWhile_cons] at hu
      by_cases hp : p a = true
      · rw [if_pos hp] at hu
        have := length_dropWhile_le p u'
        rw [hu] at this
        simp at this
      · rw [List.dropWhile_cons, if_neg hp]

theorem pyStrip_dropWhile (s : Str) :
    (pyStrip s).dropWhile Char.isWhitespace = pyStrip s := by
  unfold pyStrip
  exact dropWhile_stripped _ _ (dropWhile_dropWhile _ s)

/-- `strip` is idempotent: stripping an already-stripped string changes
nothing. -/
theorem pyStrip_idem (s : Str) : pyStrip (pyStrip s) = pyStrip s := by
  conv_lhs => rw [pyStrip]
  rw [pyStrip_dropWhile, pyStrip, List.reverse_reverse, dropWhile_dropWhile]

/-! ### Facts about `pyRound` -/

theorem floor_le_pyRound (x : ℚ) : ⌊x⌋ ≤ pyRound x := by
  simp only [pyRound]
  split
  · exact le_refl _
  · split
    · omega
    · split <;> omega

theorem pyRound_le_ceil (x : ℚ) : pyRound x ≤ ⌈x⌉ := by
  simp only [pyRound]
  split
  · exact Int.floor_le_ceil x
  · rename_i h1
    have hhalf : (1:ℚ)/2 ≤ x - ⌊x⌋ := not_lt.mp h1
    have hlt : (⌊x⌋ : ℚ) < x := by linarith
    have hfc : ⌊x⌋ < ⌈x⌉ := Int.lt_ceil.mpr hlt
    split
    · omega
    · split <;> omega

theorem pyRound2_mem (x : ℚ) (h0 : 0 ≤ x) (h1 : x ≤ 100) :
    0 ≤ pyRound2 x ∧ pyRound2 x ≤ 100 := by
  have ha : (0:ℤ) ≤ pyRound (x * 100) := by
    refine le_trans ?_ (floor_le_pyRound _)
    exact Int.le_floor.mpr (by push_cast; linarith)
  have hb : pyRound (x * 100) ≤ 10000 := by
    refine le_trans (pyRound_le_ceil _) ?_
    exact Int.ceil_le.mpr (by push_cast; linarith)
  unfold pyRound2
  constructor
  · apply div_nonneg _ (by norm_num)
    exact_mod_cast ha
  · rw [div_le_iff₀ (by norm_num : (0:ℚ) < 100)]
    calc (pyRound (x * 100) : ℚ) ≤ 10000 := by exact_mod_cast hb
    _ = 100 * 100 := by norm_num

theorem maxProba_mem (m : TrainedModel) (s : Str) :
    0 ≤ maxProba m s ∧ maxProba m s ≤ 1 := by
  obtain ⟨h0, h1⟩ := m.probaPhish_mem s
  unfold maxProba
  constructor
  · exact le_trans h0 (le_max_left _ _)
  · exact max_le h1 (by linarith)

/-! ### Facts about `analyze_email` -/

theorem analyze_email_eq_ok (m : TrainedModel) (email : Str)
    (h1 : pyStrip email ≠ []) (h2 : ¬ 1000 < email.length) :
    analyze_email m email =
      .ok (m.predict email, pyRound2 (maxProba m email * 100)) := by
  unfold analyze_email
  rw [if_neg h1, if_neg h2]

theorem analyze_email_ok_shape {m : TrainedModel} {email : Str}
    {x : Label × ℚ} (h : analyze_email m email = .ok x) :
    pyStrip email ≠ [] ∧ email.length ≤ 1000 := by
  unfold analyze_email at h
  by_cases h1 : pyStrip email = []
  · rw [if_pos h1] at h; exact absurd h (by simp)
  · rw [if_neg h1] at h
    by_cases h2 : 1000 < email.length
    · rw [if_pos h2] at h; exact absurd h (by simp)
    · exact ⟨h1, by omega⟩

/-! ### Unfolding and congruence lemmas for the interactive loop -/

theorem runLoopF_zero (m : TrainedModel) (dbOk : Bool) (inputs : List Str)
    (st : Store) :
    runLoopF m dbOk 0 inputs st = ⟨st, [], .inputExhausted⟩ := rfl

theorem runLoopF_succ (m : TrainedModel) (dbOk : Bool) (n : Nat)
    (inputs : List Str) (st : Store) :
    runLoopF m dbOk (n + 1) inputs st =
      runLoopStep m dbOk (runLoopF m dbOk n) inputs st := rfl

theorem runLoop_nil (m : TrainedModel) (dbOk : Bool) (st : Store) :
    runLoop m dbOk [] st = ⟨st, [], .inputExhausted⟩ := rfl

theorem runLoop_cons (m : TrainedModel) (dbOk : Bool) (line : Str)
    (rest : List Str) (st : Store) :
    runLoop m dbOk (line :: rest) st =
      lineStep m dbOk (runLoopF m dbOk rest.length) line rest st := rfl

theorem lineStep_quit (m : TrainedModel) (dbOk : Bool)
    (ih : List Str → Store → SessionResult) (line : Str) (rest : List Str)
    (st : Store) (h : pyLower (pyStrip line) = quitTok) :
    lineStep m dbOk ih line rest st = ⟨st, [], .quit⟩ := by
  simp only [lineStep]
  rw [if_pos h]

theorem lineStep_report (m : TrainedModel) (dbOk : Bool)
    (ih : List Str → Store → SessionResult) (line : Str) (rest : List Str)
    (st : Store)
    (hq : pyLower (pyStrip line) ≠ quitTok)
    (hr : pyLower (pyStrip line) = reportTok) :
    lineStep m dbOk ih line rest st =
      (ih rest st).withOut
        [.reportCounts st.detections.length st.false_positives.length] := by
  simp only [lineStep]
  rw [if_neg hq, if_pos hr]

theorem lineStep_empty (m : TrainedModel) (dbOk : Bool)
    (ih : List Str → Store → SessionResult) (line : Str) (rest : List Str)
    (st : Store)
    (hq : pyLower (pyStrip line) ≠ quitTok)
    (hr : pyLower (pyStrip line) ≠ reportTok)
    (he : pyStrip line = []) :
    lineStep m dbOk ih line rest st = (ih rest st).withOut [.errEmpty] := by
  simp only [lineStep]
  rw [if_neg hq, if_neg hr, if_pos he]

theorem lineStep_short (m : TrainedModel) (dbOk : Bool)
    (ih : List Str → Store → SessionResult) (line : Str) (rest : List Str)
    (st : Store)
    (hq : pyLower (pyStrip line) ≠ quitTok)
    (hr : pyLower (pyStrip line) ≠ reportTok)
    (hne : pyStrip line ≠ [])
    (hs : (pyStrip line).length < 10) :
    lineStep m dbOk ih line rest st = (ih rest st).withOut [.errShort] := by
  simp only [lineStep]
  rw [if_neg hq, if_neg hr, if_neg hne, if_pos hs]

theorem lineStep_analyze_err (m : TrainedModel) (dbOk : Bool)
    (ih : List Str → Store → SessionResult) (line : Str) (rest : List Str)
    (st : Store) (e : AnalyzeError)
    (hq : pyLower (pyStrip line) ≠ quitTok)
    (hr : pyLower (pyStrip line) ≠ reportTok)
    (hne : pyStrip line ≠ [])
    (hlen : ¬ (pyStrip line).length < 10)
    (herr : analyze_email m (pyStrip line) = .error e) :
    lineStep m dbOk ih line rest st =
      (ih rest st).withOut [.analyzed (pyStrip line), .errCaught] := by
  simp only [lineStep]
  rw [if_neg hq, if_neg hr, if_neg hne, if_neg hlen, herr]

theorem lineStep_ok (m : TrainedModel) (dbOk : Bool)
    (ih : List Str → Store → SessionResult) (line : Str) (rest : List Str)
    (st : Store) (p : Label) (c : ℚ)
    (hq : pyLower (pyStrip line) ≠ quitTok)
    (hr : pyLower (pyStrip line) ≠ reportTok)
    (hne : pyStrip line ≠ [])
    (hlen : ¬ (pyStrip line).length < 10)
    (hok : analyze_email m (pyStrip line) = .ok (p, c)) :
    lineStep m dbOk ih line rest st =
      feedbackStep dbOk ih (pyStrip line)
        ([.analyzed (pyStrip line), .result p.toStr c] ++
          (save_to_db dbOk (pyStrip line) p.toStr c st).2)
        (save_to_db dbOk (pyStrip line) p.toStr c st).1 rest := by
  simp only [lineStep]
  rw [if_neg hq, if_neg hr, if_neg hne, if_neg hlen, hok]

theorem labelStep_congr (dbOk : Bool)
    (ih1 ih2 : List Str → Store → SessionResult) (email : Str)
    (out0 : List Output) (st1 : Store) (L : Nat)
    (h : ∀ inputs' st', inputs'.length < L →
      ih1 inputs' st' = ih2 inputs' st') :
    ∀ rest2 : List Str, rest2.length ≤ L →
      labelStep dbOk ih1 email out0 st1 rest2 =
        labelStep dbOk ih2 email out0 st1 rest2 := by
  intro rest2 hlen
  rcases rest2 with _ | ⟨lab, rest3⟩
  · rfl
  · have h3 : rest3.length < L := by simp at hlen; omega
    simp only [labelStep]
    rw [h rest3 _ h3, h rest3 _ h3]

theorem feedbackStep_congr (dbOk : Bool)
    (ih1 ih2 : List Str → Store → SessionResult) (email : Str)
    (out0 : List Output) (st1 : Store) (L : Nat)
    (h : ∀ inputs' st', inputs'.length < L →
      ih1 inputs' st' = ih2 inputs' st') :
    ∀ rest : List Str, rest.length ≤ L →
      feedbackStep dbOk ih1 email out0 st1 rest =
        feedbackStep dbOk ih2 email out0 st1 rest := by
  intro rest hlen
  rcases rest with _ | ⟨fb, rest2⟩
  · rfl
  · have h2 : rest2.length < L := by simp at hlen; omega
    simp only [feedbackStep]
    rw [labelStep_congr dbOk ih1 ih2 email out0 st1 L h rest2 (by omega),
      h rest2 _ h2]

theorem lineStep_congr (m : TrainedModel) (dbOk : Bool)
    (ih1 ih2 : List Str → Store → SessionResult) (line : Str)
    (rest : List Str) (st : Store) (L : Nat)
    (h : ∀ inputs' st', inputs'.length < L →
      ih1 inputs' st' = ih2 inputs' st')
    (hlen : rest.length < L) :
    lineStep m dbOk ih1 line rest st = lineStep m dbOk ih2 line rest st := by
  simp only [lineStep]
  rw [h rest st hlen]
  rcases hA : analyze_email m (pyStrip line) with e | ⟨p, c⟩
  · rfl
  · dsimp only
    rw [feedbackStep_congr dbOk ih1 ih2 (pyStrip line) _ _ L h rest
      (by omega)]

theorem runLoopStep_congr (m : TrainedModel) (dbOk : Bool)
    (ih1 ih2 : List Str → Store → SessionResult) (L : Nat)
    (h : ∀ inputs' st', inputs'.length < L →
      ih1 inputs' st' = ih2 inputs' st') :
    ∀ (inputs : List Str) (st : Store), inputs.length ≤ L →
      runLoopStep m dbOk ih1 inputs st = runLoopStep m dbOk ih2 inputs st := by
  intro inputs st hlen
  rcases inputs with _ | ⟨line, rest⟩
  · rfl
  · simp only [runLoopStep]
    exact lineStep_congr m dbOk ih1 ih2 line rest st L h
      (by simp at hlen; omega)

/-- Fuel adequacy: any fuel of at least the script length runs the loop to
the same result as `runLoop` itself (each iteration consumes at least one
line, so the fuel never runs out before the script does). -/
theorem runLoopF_id_of_le (m : TrainedModel) (dbOk : Bool) :
    ∀ (n : Nat) (inputs : List Str) (st : Store), inputs.length ≤ n →
      runLoopF m dbOk n inputs st = runLoop m dbOk inputs st := by
  intro n
  induction n using Nat.strong_induction_on with
  | _ n IH =>
    intro inputs st hlen
    rcases n with _ | n
    · rcases inputs with _ | ⟨line, rest⟩
      · rfl
      · simp at hlen
    · rcases inputs with _ | ⟨line, rest⟩
      · rfl
      · have hcons : runLoop m dbOk (line :: rest) st =
            runLoopStep m dbOk (runLoopF m dbOk rest.length)
              (line :: rest) st := rfl
        rw [runLoopF_succ, hcons]
        refine runLoopStep_congr m dbOk _ _ (rest.length + 1) ?_
          (line :: rest) st (by simp)
        intro inputs' st' hlen'
        have hle : inputs'.length ≤ rest.length := by omega
        have hrn : rest.length ≤ n := by simp at hlen; omega
        rw [IH n (by omega) inputs' st' (le_trans hle hrn),
          IH rest.length (by omega) inputs' st' hle]

/-! ### Small helper facts -/

theorem withOut_store (r : SessionResult) (o : List Output) :
    (r.withOut o).store = r.store := rfl

theorem withOut_output (r : SessionResult) (o : List Output) :
    (r.withOut o).output = o ++ r.output := rfl

theorem withOut_exit (r : SessionResult) (o : List Output) :
    (r.withOut o).exit = r.exit := rfl

theorem Label.toStr_ne_nil (p : Label) : p.toStr ≠ [] := by
  cases p <;> simp [Label.toStr, phishTok, legitTok]

theorem Label.toStr_cases (p : Label) :
    p.toStr = phishTok ∨ p.toStr = legitTok := by
  cases p
  · exact Or.inl rfl
  · exact Or.inr rfl

theorem save_to_db_fst (dbOk : Bool) (email prediction : Str)
    (confidence : ℚ) (st : Store) :
    (save_to_db dbOk email prediction confidence st).1 = st ∨
      (save_to_db dbOk email prediction confidence st).1 =
        { st with detections :=
            st.detections ++ [⟨email, prediction, confidence⟩] } := by
  unfold save_to_db
  split
  · exact Or.inl rfl
  · split
    · exact Or.inr rfl
    · exact Or.inl rfl

theorem save_to_db_snd (dbOk : Bool) (email prediction : Str)
    (confidence : ℚ) (st : Store) :
    (save_to_db dbOk email prediction confidence st).2 = [.warnSkipEmpty] ∨
      (save_to_db dbOk email prediction confidence st).2 = [] ∨
      (save_to_db dbOk email prediction confidence st).2 =
        [.warnDbError] := by
  unfold save_to_db
  split
  · exact Or.inl rfl
  · split
    · exact Or.inr (Or.inl rfl)
    · exact Or.inr (Or.inr rfl)

theorem addFeedback_detections (st : Store) (r : FeedbackRecord) :
    (addFeedback st r).detections = st.detections := rfl

/-! ### Branch equations of the loop at the `runLoop` level -/

theorem runLoop_quit (m : TrainedModel) (dbOk : Bool) (line : Str)
    (rest : List Str) (st : Store)
    (h : pyLower (pyStrip line) = quitTok) :
    runLoop m dbOk (line :: rest) st = ⟨st, [], .quit⟩ := by
  rw [runLoop_cons, lineStep_quit m dbOk _ line rest st h]

theorem runLoop_report (m : TrainedModel) (dbOk : Bool) (line : Str)
    (rest : List Str) (st : Store)
    (hq : pyLower (pyStrip line) ≠ quitTok)
    (hr : pyLower (pyStrip line) = reportTok) :
    runLoop m dbOk (line :: rest) st =
      (runLoop m dbOk rest st).withOut
        [.reportCounts st.detections.length st.false_positives.length] := by
  rw [runLoop_cons, lineStep_report m dbOk _ line rest st hq hr,
    runLoopF_id_of_le m dbOk rest.length rest st (le_refl _)]

theorem runLoop_empty (m : TrainedModel) (dbOk : Bool) (line : Str)
    (rest : List Str) (st : Store)
    (hq : pyLower (pyStrip line) ≠ quitTok)
    (hr : pyLower (pyStrip line) ≠ reportTok)
    (he : pyStrip line = []) :
    runLoop m dbOk (line :: rest) st =
      (runLoop m dbOk rest st).withOut [.errEmpty] := by
  rw [runLoop_cons, lineStep_empty m dbOk _ line rest st hq hr he,
    runLoopF_id_of_le m dbOk rest.length rest st (le_refl _)]

theorem runLoop_short (m : TrainedModel) (dbOk : Bool) (line : Str)
    (rest : List Str) (st : Store)
    (hq : pyLower (pyStrip line) ≠ quitTok)
    (hr : pyLower (pyStrip line) ≠ reportTok)
    (hne : pyStrip line ≠ [])
    (hs : (pyStrip line).length < 10) :
    runLoop m dbOk (line :: rest) st =
      (runLoop m dbOk rest st).withOut [.errShort] := by
  rw [runLoop_cons, lineStep_short m dbOk _ line rest st hq hr hne hs,
    runLoopF_id_of_le m dbOk rest.length rest st (le_refl _)]

theorem runLoop_analyze_err (m : TrainedModel) (dbOk : Bool) (line : Str)
    (rest : List Str) (st : Store) (e : AnalyzeError)
    (hq : pyLower (pyStrip line) ≠ quitTok)
    (hr : pyLower (pyStrip line) ≠ reportTok)
    (hne : pyStrip line ≠ [])
    (hlen : ¬ (pyStrip line).length < 10)
    (herr : analyze_email m (pyStrip line) = .error e) :
    runLoop m dbOk (line :: rest) st =
      (runLoop m dbOk rest st).withOut
        [.analyzed (pyStrip line), .errCaught] := by
  rw [runLoop_cons,
    lineStep_analyze_err m dbOk _ line rest st e hq hr hne hlen herr,
    runLoopF_id_of_le m dbOk rest.length rest st (le_refl _)]

theorem runLoop_ok_single (m : TrainedModel) (dbOk : Bool) (line : Str)
    (st : Store) (p : Label) (c : ℚ)
    (hq : pyLower (pyStrip line) ≠ quitTok)
    (hr : pyLower (pyStrip line) ≠ reportTok)
    (hne : pyStrip line ≠ [])
    (hlen : ¬ (pyStrip line).length < 10)
    (hok : analyze_email m (pyStrip line) = .ok (p, c)) :
    runLoop m dbOk [line] st =
      ⟨(save_to_db dbOk (pyStrip line) p.toStr c st).1,
        [.analyzed (pyStrip line), .result p.toStr c] ++
          (save_to_db dbOk (pyStrip line) p.toStr c st).2 ++ [.errCaught],
        .inputExhausted⟩ := by
  rw [runLoop_cons, lineStep_ok m dbOk _ line [] st p c hq hr hne hlen hok]
  simp only [feedbackStep]

theorem runLoop_ok_fb_other (m : TrainedModel) (dbOk : Bool)
    (line fb : Str) (rest2 : List Str) (st : Store) (p : Label) (c : ℚ)
    (hq : pyLower (pyStrip line) ≠ quitTok)
    (hr : pyLower (pyStrip line) ≠ reportTok)
    (hne : pyStrip line ≠ [])
    (hlen : ¬ (pyStrip line).length < 10)
    (hok : analyze_email m (pyStrip line) = .ok (p, c))
    (hfb : pyLower fb ≠ nTok) :
    runLoop m dbOk (line :: fb :: rest2) st =
      (runLoop m dbOk rest2
          (save_to_db dbOk (pyStrip line) p.toStr c st).1).withOut
        ([.analyzed (pyStrip line), .result p.toStr c] ++
          (save_to_db dbOk (pyStrip line) p.toStr c st).2) := by
  rw [runLoop_cons,
    lineStep_ok m dbOk _ line (fb :: rest2) st p c hq hr hne hlen hok]
  simp only [feedbackStep]
  rw [if_neg hfb, runLoopF_id_of_le m dbOk (fb :: rest2).length rest2 _
    (by simp only [List.length_cons]; omega)]

theorem runLoop_ok_fb_n_nolabel (m : TrainedModel) (dbOk : Bool)
    (line fb : Str) (st : Store) (p : Label) (c : ℚ)
    (hq : pyLower (pyStrip line) ≠ quitTok)
    (hr : pyLower (pyStrip line) ≠ reportTok)
    (hne : pyStrip line ≠ [])
    (hlen : ¬ (pyStrip line).length < 10)
    (hok : analyze_email m (pyStrip line) = .ok (p, c))
    (hfb : pyLower fb = nTok) :
    runLoop m dbOk [line, fb] st =
      ⟨(save_to_db dbOk (pyStrip line) p.toStr c st).1,
        [.analyzed (pyStrip line), .result p.toStr c] ++
          (save_to_db dbOk (pyStrip line) p.toStr c st).2 ++ [.errCaught],
        .inputExhausted⟩ := by
  rw [runLoop_cons, lineStep_ok m dbOk _ line [fb] st p c hq hr hne hlen hok]
  simp only [feedbackStep]
  rw [if_pos hfb]
  simp only [labelStep]

theorem runLoop_ok_fb_n_valid (m : TrainedModel) (line fb lab : Str)
    (rest3 : List Str) (st : Store) (p : Label) (c : ℚ)
    (hq : pyLower (pyStrip line) ≠ quitTok)
    (hr : pyLower (pyStrip line) ≠ reportTok)
    (hne : pyStrip line ≠ [])
    (hlen : ¬ (pyStrip line).length < 10)
    (hok : analyze_email m (pyStrip line) = .ok (p, c))
    (hfb : pyLower fb = nTok)
    (hlab : pyLower (pyStrip lab) = phishTok ∨
      pyLower (pyStrip lab) = legitTok) :
    runLoop m true (line :: fb :: lab :: rest3) st =
      (runLoop m true rest3
          (addFeedback (save_to_db true (pyStrip line) p.toStr c st).1
            ⟨pyStrip line, pyLower (pyStrip lab)⟩)).withOut
        ([.analyzed (pyStrip line), .result p.toStr c] ++
          (save_to_db true (pyStrip line) p.toStr c st).2 ++
          [.feedbackSaved]) := by
  rw [runLoop_cons,
    lineStep_ok m true _ line (fb :: lab :: rest3) st p c hq hr hne hlen hok]
  simp only [feedbackStep]
  rw [if_pos hfb]
  simp only [labelStep]
  rw [if_pos hlab, if_true,
    runLoopF_id_of_le m true (fb :: lab :: rest3).length rest3 _
      (by simp only [List.length_cons]; omega)]

theorem runLoop_ok_fb_n_invalid (m : TrainedModel) (dbOk : Bool)
    (line fb lab : Str) (rest3 : List Str) (st : Store) (p : Label) (c : ℚ)
    (hq : pyLower (pyStrip line) ≠ quitTok)
    (hr : pyLower (pyStrip line) ≠ reportTok)
    (hne : pyStrip line ≠ [])
    (hlen : ¬ (pyStrip line).length < 10)
    (hok : analyze_email m (pyStrip line) = .ok (p, c))
    (hfb : pyLower fb = nTok)
    (hlab : ¬ (pyLower (pyStrip lab) = phishTok ∨
      pyLower (pyStrip lab) = legitTok)) :
    runLoop m dbOk (line :: fb :: lab :: rest3) st =
      (runLoop m dbOk rest3
          (save_to_db dbOk (pyStrip line) p.toStr c st).1).withOut
        ([.analyzed (pyStrip line), .result p.toStr c] ++
          (save_to_db dbOk (pyStrip line) p.toStr c st).2 ++
          [.invalidLabel]) := by
  rw [runLoop_cons,
    lineStep_ok m dbOk _ line (fb :: lab :: rest3) st p c hq hr hne hlen hok]
  simp only [feedbackStep]
  rw [if_pos hfb]
  simp only [labelStep]
  rw [if_neg hlab,
    runLoopF_id_of_le m dbOk (fb :: lab :: rest3).length rest3 _
      (by simp only [List.length_cons]; omega)]

/-! ### The session wrapper -/

theorem runSession_of_quit (m : TrainedModel) (dbOk : Bool)
    (inputs : List Str)
    (h : (runLoop m dbOk inputs initStore).exit = .quit) :
    runSession m dbOk inputs =
      ⟨closeConn (runLoop m dbOk inputs initStore).store,
        (runLoop m dbOk inputs initStore).output, .quit⟩ := by
  simp only [runSession]
  rw [h]

theorem runSession_of_exhausted (m : TrainedModel) (dbOk : Bool)
    (inputs : List Str)
    (h : (runLoop m dbOk inputs initStore).exit = .inputExhausted) :
    runSession m dbOk inputs = runLoop m dbOk inputs initStore := by
  simp only [runSession]
  rw [h]

/-! ### The loop invariant: connection untouched, only validated detections
appended, the prediction service only invoked on validated text -/


theorem ConnEq_refl (st : Store) : ConnEq st st := ⟨rfl, rfl, rfl⟩

theorem NewDetGood_refl (st : Store) : NewDetGood st st :=
  fun _ hr => Or.inl hr

theorem LoopInv.comp {st st1 : Store} {r : SessionResult}
    (h : LoopInv st1 r) (hc : ConnEq st st1) (hd : NewDetGood st st1) :
    LoopInv st r := by
  obtain ⟨⟨h1, h2, h3⟩, hD, hA⟩ := h
  obtain ⟨c1, c2, c3⟩ := hc
  refine ⟨⟨by rw [h1, c1], by rw [h2, c2], by rw [h3, c3]⟩, ?_, hA⟩
  intro r hr
  rcases hD r hr with hmem | hg
  · exact hd r hmem
  · exact Or.inr hg

theorem ConnEq_save (dbOk : Bool) (email pred : Str) (conf : ℚ)
    (st : Store) : ConnEq st (save_to_db dbOk email pred conf st).1 := by
  rcases save_to_db_fst dbOk email pred conf st with h | h <;>
    rw [h] <;> exact ⟨rfl, rfl, rfl⟩

theorem ConnEq_addFeedback (st : Store) (r : FeedbackRecord) :
    ConnEq st (addFeedback st r) := ⟨rfl, rfl, rfl⟩

theorem NewDetGood_save (dbOk : Bool) (email pred : Str) (conf : ℚ)
    (st : Store) (hg : goodDetection ⟨email, pred, conf⟩) :
    NewDetGood st (save_to_db dbOk email pred conf st).1 := by
  rcases save_to_db_fst dbOk email pred conf st with h | h <;> rw [h]
  · exact NewDetGood_refl st
  · intro r hr
    simp only [List.mem_append, List.mem_singleton] at hr
    rcases hr with hr | hr
    · exact Or.inl hr
    · exact Or.inr (hr ▸ hg)

theorem AnalyzedGood_nil : AnalyzedGood [] := by
  intro t ht
  simp at ht

theorem AnalyzedGood_append {o1 o2 : List Output}
    (h1 : AnalyzedGood o1) (h2 : AnalyzedGood o2) :
    AnalyzedGood (o1 ++ o2) := by
  intro t ht
  rcases List.mem_append.mp ht with h | h
  · exact h1 t h
  · exact h2 t h

theorem AnalyzedGood_single_not {o : Output}
    (h : ∀ t, o ≠ .analyzed t) : AnalyzedGood [o] := by
  intro t ht
  simp only [List.mem_singleton] at ht
  exact absurd ht.symm (h t)

theorem labelStep_inv (dbOk : Bool)
    (ih : List Str → Store → SessionResult) (email : Str)
    (out0 : List Output) (st1 : Store)
    (hih : ∀ inputs' st', LoopInv st' (ih inputs' st'))
    (hout0 : AnalyzedGood out0) :
    ∀ rest2 : List Str, LoopInv st1 (labelStep dbOk ih email out0 st1 rest2) := by
  intro rest2
  rcases rest2 with _ | ⟨lab, rest3⟩
  · exact ⟨ConnEq_refl st1, NewDetGood_refl st1,
      AnalyzedGood_append hout0 (AnalyzedGood_single_not (by intro t h; cases h))⟩
  · simp only [labelStep]
    split
    · split
      · obtain ⟨hc, hd, ha⟩ :=
          hih rest3 (addFeedback st1 ⟨email, pyLower (pyStrip lab)⟩)
        have h1 : LoopInv (addFeedback st1 ⟨email, pyLower (pyStrip lab)⟩)
            ((ih rest3
                (addFeedback st1 ⟨email, pyLower (pyStrip lab)⟩)).withOut
              (out0 ++ [Output.feedbackSaved])) :=
          ⟨hc, hd, AnalyzedGood_append
            (AnalyzedGood_append hout0
              (AnalyzedGood_single_not (by intro t h; cases h))) ha⟩
        refine LoopInv.comp h1 (ConnEq_addFeedback st1 _) ?_
        intro r hr
        exact Or.inl (by rwa [addFeedback_detections] at hr)
      · obtain ⟨hc, hd, ha⟩ := hih rest3 st1
        exact ⟨hc, hd, AnalyzedGood_append
          (AnalyzedGood_append hout0
            (AnalyzedGood_single_not (by intro t h; cases h))) ha⟩
    · obtain ⟨hc, hd, ha⟩ := hih rest3 st1
      exact ⟨hc, hd, AnalyzedGood_append
        (AnalyzedGood_append hout0
          (AnalyzedGood_single_not (by intro t h; cases h))) ha⟩

theorem feedbackStep_inv (dbOk : Bool)
    (ih : List Str → Store → SessionResult) (email : Str)
    (out0 : List Output) (st1 : Store)
    (hih : ∀ inputs' st', LoopInv st' (ih inputs' st'))
    (hout0 : AnalyzedGood out0) :
    ∀ rest : List Str, LoopInv st1 (feedbackStep dbOk ih email out0 st1 rest) := by
  intro rest
  rcases rest with _ | ⟨fb, rest2⟩
  · exact ⟨ConnEq_refl st1, NewDetGood_refl st1,
      AnalyzedGood_append hout0 (AnalyzedGood_single_not (by intro t h; cases h))⟩
  · simp only [feedbackStep]
    split
    · exact labelStep_inv dbOk ih email out0 st1 hih hout0 rest2
    · obtain ⟨hc, hd, ha⟩ := hih rest2 st1
      exact ⟨hc, hd, AnalyzedGood_append hout0 ha⟩

theorem lineStep_inv (m : TrainedModel) (dbOk : Bool)
    (ih : List Str → Store → SessionResult) (line : Str) (rest : List Str)
    (st : Store)
    (hih : ∀ inputs' st', LoopInv st' (ih inputs' st')) :
    LoopInv st (lineStep m dbOk ih line rest st) := by
  by_cases hq : pyLower (pyStrip line) = quitTok
  · rw [lineStep_quit m dbOk ih line rest st hq]
    exact ⟨ConnEq_refl st, NewDetGood_refl st, AnalyzedGood_nil⟩
  by_cases hr : pyLower (pyStrip line) = reportTok
  · rw [lineStep_report m dbOk ih line rest st hq hr]
    obtain ⟨hc, hd, ha⟩ := hih rest st
    exact ⟨hc, hd, AnalyzedGood_append
      (AnalyzedGood_single_not (by intro t h; cases h)) ha⟩
  by_cases he : pyStrip line = []
  · rw [lineStep_empty m dbOk ih line rest st hq hr he]
    obtain ⟨hc, hd, ha⟩ := hih rest st
    exact ⟨hc, hd, AnalyzedGood_append
      (AnalyzedGood_single_not (by intro t h; cases h)) ha⟩
  by_cases hs : (pyStrip line).length < 10
  · rw [lineStep_short m dbOk ih line rest st hq hr he hs]
    obtain ⟨hc, hd, ha⟩ := hih rest st
    exact ⟨hc, hd, AnalyzedGood_append
      (AnalyzedGood_single_not (by intro t h; cases h)) ha⟩
  rcases hA : analyze_email m (pyStrip line) with e | ⟨p, c⟩
  · rw [lineStep_analyze_err m dbOk ih line rest st e hq hr he hs hA]
    obtain ⟨hc, hd, ha⟩ := hih rest st
    refine ⟨hc, hd, AnalyzedGood_append ?_ ha⟩
    intro t ht
    simp only [List.mem_cons, List.mem_singleton] at ht
    rcases ht with ht | ht | ht
    · cases ht
      exact ⟨by omega, pyStrip_idem line⟩
    · cases ht
    · cases ht
  · rw [lineStep_ok m dbOk ih line rest st p c hq hr he hs hA]
    have hgood : goodDetection ⟨pyStrip line, p.toStr, c⟩ := by
      refine ⟨pyStrip_idem line, ?_, (analyze_email_ok_shape hA).2,
        Label.toStr_cases p⟩
      show 10 ≤ (pyStrip line).length
      omega
    refine LoopInv.comp
      (feedbackStep_inv dbOk ih (pyStrip line) _ _ hih ?_ rest)
      (ConnEq_save dbOk _ _ _ st) (NewDetGood_save dbOk _ _ _ st hgood)
    refine AnalyzedGood_append ?_ ?_
    · intro t ht
      simp only [List.mem_cons, List.mem_singleton] at ht
      rcases ht with ht | ht | ht
      · cases ht
        exact ⟨by omega, pyStrip_idem line⟩
      · cases ht
      · cases ht
    · intro t ht
      rcases save_to_db_snd dbOk (pyStrip line) p.toStr c st with h | h | h <;>
        rw [h] at ht <;> simp at ht

/-- The loop respects `LoopInv` for any fuel: the connection-lifecycle
fields are never touched inside the loop, all detections it appends satisfy
`goodDetection`, and `analyze_email` is only ever invoked on stripped text
of length at least 10. -/
theorem runLoopF_inv (m : TrainedModel) (dbOk : Bool) :
    ∀ (n : Nat) (inputs : List Str) (st : Store),
      LoopInv st (runLoopF m dbOk n inputs st) := by
  intro n
  induction n with
  | zero =>
    intro inputs st
    exact ⟨ConnEq_refl st, NewDetGood_refl st, AnalyzedGood_nil⟩
  | succ n IH =>
    intro inputs st
    rcases inputs with _ | ⟨line, rest⟩
    · exact ⟨ConnEq_refl st, NewDetGood_refl st, AnalyzedGood_nil⟩
    · rw [runLoopF_succ]
      exact lineStep_inv m dbOk (runLoopF m dbOk n) line rest st IH

theorem runLoop_inv (m : TrainedModel) (dbOk : Bool) (inputs : List Str)
    (st : Store) : LoopInv st (runLoop m dbOk inputs st) :=
  runLoopF_inv m dbOk inputs.length inputs st

/-! ### Further helper facts used by the claim theorems -/

theorem pyLower_length (s : Str) : (pyLower s).length = s.length :=
  List.length_map _ _

theorem save_to_db_skip (dbOk : Bool) (email prediction : Str)
    (confidence : ℚ) (st : Store)
    (h : email = [] ∨ prediction = []) :
    save_to_db dbOk email prediction confidence st =
      (st, [.warnSkipEmpty]) := by
  unfold save_to_db
  rw [if_pos h]

theorem save_to_db_true (email prediction : Str) (confidence : ℚ)
    (st : Store) (he : email ≠ []) (hp : prediction ≠ []) :
    save_to_db true email prediction confidence st =
      ({ st with detections :=
          st.detections ++ [⟨email, prediction, confidence⟩] }, []) := by
  unfold save_to_db
  rw [if_neg (by intro h; rcases h with h | h; exact he h; exact hp h),
    if_pos rfl]

theorem save_to_db_fail (email prediction : Str) (confidence : ℚ)
    (st : Store) (he : email ≠ []) (hp : prediction ≠ []) :
    save_to_db false email prediction confidence st =
      (st, [.warnDbError]) := by
  unfold save_to_db
  rw [if_neg (by intro h; rcases h with h | h; exact he h; exact hp h)]
  rfl

theorem save_to_db_fps (dbOk : Bool) (email prediction : Str)
    (confidence : ℚ) (st : Store) :
    (save_to_db dbOk email prediction confidence st).1.false_positives =
      st.false_positives := by
  rcases save_to_db_fst dbOk email prediction confidence st with h | h <;>
    rw [h]

theorem closeConn_detections (st : Store) :
    (closeConn st).detections = st.detections := rfl

theorem pyStrip_ne_nil_of_len {line : Str}
    (h : 10 ≤ (pyStrip line).length) : pyStrip line ≠ [] := by
  intro hnil
  rw [hnil] at h
  simp at h

theorem runSession_detections (m : TrainedModel) (dbOk : Bool)
    (inputs : List Str) :
    (runSession m dbOk inputs).store.detections =
      (runLoop m dbOk inputs initStore).store.detections := by
  rcases hE : (runLoop m dbOk inputs initStore).exit
  · rw [runSession_of_quit m dbOk inputs hE]
    exact closeConn_detections _
  · rw [runSession_of_exhausted m dbOk inputs hE]

theorem analyze_email_err_shape {m : TrainedModel} {email : Str}
    {e : AnalyzeError} (h : analyze_email m email = .error e) :
    pyStrip email = [] ∨ 1000 < email.length := by
  unfold analyze_email at h
  by_cases h1 : pyStrip email = []
  · exact Or.inl h1
  · rw [if_neg h1] at h
    by_cases h2 : 1000 < email.length
    · exact Or.inr h2
    · rw [if_neg h2] at h
      exact absurd h (by simp)

/-! ### The claims -/

/-- C2: `analyze_email` enforces its preconditions in order: a text that is
empty after stripping raises the empty-input `ValueError`, otherwise a text
longer than 1000 characters raises the too-long `ValueError` (the input is
rejected, never truncated); and when `analyze_email` raises either error
inside the interactive loop, the store is unchanged — no record is
written. -/
theorem claim_C2 (m : TrainedModel) (t : Str) :
    (pyStrip t = [] → analyze_email m t = .error .emptyInput) ∧
    (pyStrip t ≠ [] → 1000 < t.length →
      analyze_email m t = .error .tooLong) ∧
    (∀ (e : AnalyzeError) (dbOk : Bool) (line : Str) (rest : List Str)
      (st : Store), pyStrip line = t → analyze_email m t = .error e →
      (runLoop m dbOk (line :: rest) st).store =
        (runLoop m dbOk rest st).store) := by
  refine ⟨?_, ?_, ?_⟩
  · intro h
    unfold analyze_email
    rw [if_pos h]
  · intro h1 h2
    unfold analyze_email
    rw [if_neg h1, if_pos h2]
  · intro e dbOk line rest st hline herr
    subst hline
    by_cases he : pyStrip line = []
    · have hq : pyLower (pyStrip line) ≠ quitTok := by rw [he]; decide
      have hr : pyLower (pyStrip line) ≠ reportTok := by rw [he]; decide
      rw [runLoop_empty m dbOk line rest st hq hr he]
      exact withOut_store _ _
    · rcases analyze_email_err_shape herr with h1 | hl
      · rw [pyStrip_idem] at h1
        exact absurd h1 he
      · have hq : pyLower (pyStrip line) ≠ quitTok := by
          intro hcon
          have hc := congrArg List.length hcon
          rw [pyLower_length] at hc
          have h4 : quitTok.length = 4 := by decide
          omega
        have hr : pyLower (pyStrip line) ≠ reportTok := by
          intro hcon
          have hc := congrArg List.length hcon
          rw [pyLower_length] at hc
          have h6 : reportTok.length = 6 := by decide
          omega
        have h10 : ¬ (pyStrip line).length < 10 := by omega
        rw [runLoop_analyze_err m dbOk line rest st e hq hr he h10 herr]
        exact withOut_store _ _

set_option maxRecDepth 100000 in
/-- C2 witness: `analyze_email` on the empty string raises the empty-input
error, on a 1001-character string raises the too-long error, and neither
writes a record in the loop. -/
theorem claim_C2_witness :
    analyze_email constModel [] = .error .emptyInput ∧
    analyze_email constModel (List.replicate 1001 'a') = .error .tooLong ∧
    (runLoop constModel true [List.replicate 1001 'a'] initStore).store =
      (runLoop constModel true [] initStore).store :=
  ⟨(claim_C2 constModel []).1 (by decide),
   (claim_C2 constModel (List.replicate 1001 'a')).2.1 (by decide)
     (by decide),
   (claim_C2 constModel (List.replicate 1001 'a')).2.2 .tooLong true
     (List.replicate 1001 'a') [] initStore rfl
     ((claim_C2 constModel (List.replicate 1001 'a')).2.1 (by decide)
       (by decide))⟩

/-- C3: on every valid input (non-empty after stripping, at most 1000
characters) `analyze_email` returns the classifier label together with a
confidence equal to 100 times the maximum class probability of the vote
distribution, rounded to two decimal places, and that confidence lies in
the interval `[0, 100]`. -/
theorem claim_C3 (m : TrainedModel) (t : Str)
    (h1 : pyStrip t ≠ []) (h2 : t.length ≤ 1000) :
    analyze_email m t =
      .ok (m.predict t, pyRound2 (maxProba m t * 100)) ∧
    0 ≤ pyRound2 (maxProba m t * 100) ∧
    pyRound2 (maxProba m t * 100) ≤ 100 := by
  obtain ⟨m0, m1⟩ := maxProba_mem m t
  obtain ⟨b0, b1⟩ := pyRound2_mem (maxProba m t * 100)
    (by linarith) (by linarith)
  exact ⟨analyze_email_eq_ok m t h1 (by omega), b0, b1⟩

/-- C3 witness at a concrete valid text and model. -/
theorem claim_C3_witness :
    analyze_email constModel ("hello world!".toList) =
      .ok (constModel.predict ("hello world!".toList),
        pyRound2 (maxProba constModel ("hello world!".toList) * 100)) ∧
    0 ≤ pyRound2 (maxProba constModel ("hello world!".toList) * 100) ∧
    pyRound2 (maxProba constModel ("hello world!".toList) * 100) ≤ 100 :=
  claim_C3 constModel ("hello world!".toList) (by decide) (by decide)

/-- C7: `save_to_db` never raises — it is a total function that, on empty
text or prediction, skips the write and emits a warning; on a failing
insert (`dbOk = false`) emits a warning and leaves the store unchanged, so
the session continues; and otherwise appends exactly one
`DetectionRecord`. -/
theorem claim_C7 (dbOk : Bool) (email prediction : Str) (confidence : ℚ)
    (st : Store) :
    (email = [] ∨ prediction = [] →
      save_to_db dbOk email prediction confidence st =
        (st, [.warnSkipEmpty])) ∧
    (email ≠ [] → prediction ≠ [] → dbOk = false →
      save_to_db dbOk email prediction confidence st =
        (st, [.warnDbError])) ∧
    (email ≠ [] → prediction ≠ [] → dbOk = true →
      save_to_db dbOk email prediction confidence st =
        ({ st with detections :=
            st.detections ++ [⟨email, prediction, confidence⟩] }, [])) := by
  refine ⟨fun h => save_to_db_skip dbOk email prediction confidence st h,
    fun he hp hf => ?_, fun he hp ht => ?_⟩
  · rw [hf]
    exact save_to_db_fail email prediction confidence st he hp
  · rw [ht]
    exact save_to_db_true email prediction confidence st he hp

/-- C7 witness: the three behaviours of `save_to_db` at concrete inputs. -/
theorem claim_C7_witness :
    save_to_db true [] phishTok 75 initStore =
      (initStore, [.warnSkipEmpty]) ∧
    save_to_db false ("hello world!".toList) phishTok 75 initStore =
      (initStore, [.warnDbError]) ∧
    save_to_db true ("hello world!".toList) phishTok 75 initStore =
      ({ initStore with detections :=
          initStore.detections ++
            [⟨"hello world!".toList, phishTok, 75⟩] }, []) :=
  ⟨(claim_C7 true [] phishTok 75 initStore).1 (Or.inl rfl),
   (claim_C7 false ("hello world!".toList) phishTok 75 initStore).2.1
     (by decide) (by decide) rfl,
   (claim_C7 true ("hello world!".toList) phishTok 75 initStore).2.2
     (by decide) (by decide) rfl⟩

/-- C8: the report command is idempotent and side-effect free: two
consecutive report lines print the same detection and feedback counts
twice, change no store state, and the loop continues on the rest of the
script from the unchanged store. -/
theorem claim_C8 (m : TrainedModel) (dbOk : Bool) (l1 l2 : Str)
    (rest : List Str) (st : Store)
    (h1 : pyLower (pyStrip l1) = reportTok)
    (h2 : pyLower (pyStrip l2) = reportTok) :
    runLoop m dbOk (l1 :: l2 :: rest) st =
      (runLoop m dbOk rest st).withOut
        [.reportCounts st.detections.length st.false_positives.length,
         .reportCounts st.detections.length st.false_positives.length] := by
  have hq1 : pyLower (pyStrip l1) ≠ quitTok := by rw [h1]; decide
  have hq2 : pyLower (pyStrip l2) ≠ quitTok := by rw [h2]; decide
  rw [runLoop_report m dbOk l1 (l2 :: rest) st hq1 h1,
    runLoop_report m dbOk l2 rest st hq2 h2]
  rfl

/-- C8 witness: two report commands (in different capitalisation and with
surrounding whitespace) on the initial store. -/
theorem claim_C8_witness :
    runLoop constModel true ["report".toList, "  REPORT ".toList]
        initStore =
      (runLoop constModel true [] initStore).withOut
        [.reportCounts 0 0, .reportCounts 0 0] :=
  claim_C8 constModel true ("report".toList) ("  REPORT ".toList) []
    initStore (by decide) (by decide)

theorem addFeedback_fps (st : Store) (r : FeedbackRecord) :
    (addFeedback st r).false_positives = st.false_positives ++ [r] := rfl

/-- C1 counterexample: a session ended by an unrecoverable error escaping
the loop (end of input at the top-of-loop prompt, the uncaught `EOFError`)
exits with the connection still open and never released — `conn.close()`
is only reached on the normal `break` path, there is no `try/finally`. -/
theorem claim_C1_counterexample :
    (runSession constModel true []).exit = .inputExhausted ∧
    (runSession constModel true []).store.connOpen = true ∧
    (runSession constModel true []).store.closeCount = 0 := by decide

/-- C1 (amended): the store connection is acquired exactly once at startup,
and no prediction or feedback error inside the loop ever releases it early;
a session that ends with the quit command releases it exactly once; but a
session ended by an unrecoverable error escaping the loop exits without
releasing the connection at all. -/
theorem claim_C1 (m : TrainedModel) (dbOk : Bool) (inputs : List Str) :
    (initStore.connOpen = true ∧ initStore.openCount = 1 ∧
      initStore.closeCount = 0) ∧
    ((runLoop m dbOk inputs initStore).store.connOpen = true ∧
     (runLoop m dbOk inputs initStore).store.openCount = 1 ∧
     (runLoop m dbOk inputs initStore).store.closeCount = 0) ∧
    ((runSession m dbOk inputs).exit = .quit →
      (runSession m dbOk inputs).store.closeCount = 1 ∧
      (runSession m dbOk inputs).store.connOpen = false) ∧
    ((runSession m dbOk inputs).exit = .inputExhausted →
      (runSession m dbOk inputs).store.closeCount = 0 ∧
      (runSession m dbOk inputs).store.connOpen = true) := by
  obtain ⟨⟨hco, hoo, hcc⟩, -, -⟩ := runLoop_inv m dbOk inputs initStore
  refine ⟨⟨rfl, rfl, rfl⟩, ⟨hco, hoo, hcc⟩, ?_, ?_⟩
  · intro hquit
    rcases hE : (runLoop m dbOk inputs initStore).exit
    · rw [runSession_of_quit m dbOk inputs hE]
      refine ⟨?_, rfl⟩
      show (runLoop m dbOk inputs initStore).store.closeCount + 1 = 1
      rw [hcc]
      rfl
    · rw [runSession_of_exhausted m dbOk inputs hE] at hquit
      rw [hE] at hquit
      exact ExitReason.noConfusion hquit
  · intro hexh
    rcases hE : (runLoop m dbOk inputs initStore).exit
    · rw [runSession_of_quit m dbOk inputs hE] at hexh
      exact ExitReason.noConfusion hexh
    · rw [runSession_of_exhausted m dbOk inputs hE]
      exact ⟨hcc, hco⟩

/-- C1 witness: a session that quits closes the connection exactly once. -/
theorem claim_C1_witness :
    (runSession constModel true ["quit".toList]).store.closeCount = 1 ∧
    (runSession constModel true ["quit".toList]).store.connOpen = false :=
  (claim_C1 constModel true ["quit".toList]).2.2.1 (by decide)

/-- C4: a dataset missing one of the required columns, or containing a
label value other than the two recognized ones, makes validation raise the
DataValidationError (`ValueError`) and the process abort before any
train/test split or fitting occurs: the result is the same error for every
possible training stage, so the training stage is never run and no partial
model is ever published. -/
theorem claim_C4 {M : Type} (d : RawCsv)
    (h : "label".toList ∉ d.cols ∨ "text".toList ∉ d.cols ∨
      ∃ l ∈ d.labels, l ≠ phishTok ∧ l ≠ legitTok) :
    ∃ msg : Str, validateData d = .error msg ∧
      ∀ train₁ train₂ : RawCsv → M,
        runTraining train₁ d = .error msg ∧
        runTraining train₁ d = runTraining train₂ d := by
  have hval : ∃ msg : Str, validateData d = .error msg := by
    unfold validateData
    by_cases hc : "text".toList ∈ d.cols ∧ "label".toList ∈ d.cols
    · have hbad : ¬ ∀ l ∈ d.labels, l = phishTok ∨ l = legitTok := by
        rcases h with h | h | ⟨l, hl, hn1, hn2⟩
        · exact absurd hc.2 h
        · exact absurd hc.1 h
        · intro hall
          rcases hall l hl with he | he
          · exact hn1 he
          · exact hn2 he
      rw [if_neg (not_not_intro hc), if_pos hbad]
      exact ⟨_, rfl⟩
    · rw [if_pos hc]
      exact ⟨_, rfl⟩
  obtain ⟨msg, hmsg⟩ := hval
  refine ⟨msg, hmsg, fun train₁ train₂ => ?_⟩
  unfold runTraining
  rw [hmsg]
  exact ⟨rfl, rfl⟩

/-- C4 witness: a dataset whose only column is `text` (the `label` column
is missing) is rejected by validation before any training. -/
theorem claim_C4_witness :
    ∃ msg : Str,
      validateData ⟨["text".toList], [], []⟩ = .error msg ∧
      ∀ train₁ train₂ : RawCsv → Unit,
        runTraining train₁ ⟨["text".toList], [], []⟩ = .error msg ∧
        runTraining train₁ ⟨["text".toList], [], []⟩ =
          runTraining train₂ ⟨["text".toList], [], []⟩ :=
  @claim_C4 Unit ⟨["text".toList], [], []⟩ (Or.inl (by decide))

/-- C5: the interactive loop never invokes `analyze_email` on an input
whose trimmed length is below 10 — every analyzed text has length at least
10 — and a too-short or empty line (that is not one of the quit/report
tokens) only produces a validation error and returns to the prompt, the
loop continuing on the unchanged store. -/
theorem claim_C5 (m : TrainedModel) (dbOk : Bool) :
    (∀ (inputs : List Str) (st : Store) (t : Str),
      Output.analyzed t ∈ (runLoop m dbOk inputs st).output →
        10 ≤ t.length) ∧
    (∀ (line : Str) (rest : List Str) (st : Store),
      (pyStrip line).length < 10 →
      pyLower (pyStrip line) ≠ quitTok →
      pyLower (pyStrip line) ≠ reportTok →
      runLoop m dbOk (line :: rest) st =
        (runLoop m dbOk rest st).withOut
          [if pyStrip line = [] then Output.errEmpty
           else Output.errShort]) := by
  constructor
  · intro inputs st t ht
    exact ((runLoop_inv m dbOk inputs st).2.2 t ht).1
  · intro line rest st hs hq hr
    by_cases he : pyStrip line = []
    · rw [if_pos he]
      exact runLoop_empty m dbOk line rest st hq hr he
    · rw [if_neg he]
      exact runLoop_short m dbOk line rest st hq hr he hs

attribute [local semireducible] Rat.mul Rat.inv Rat.add Rat.sub in
/-- C5 witness: in a concrete session the analyzed text has length at least
10, and a concrete too-short line only yields the validation error. -/
theorem claim_C5_witness :
    10 ≤ ("hello world!".toList : Str).length ∧
    runLoop constModel true ["short".toList] initStore =
      (runLoop constModel true [] initStore).withOut
        [if pyStrip ("short".toList) = [] then Output.errEmpty
         else Output.errShort] :=
  ⟨(claim_C5 constModel true).1 ["hello world!".toList, "y".toList]
      initStore ("hello world!".toList) (by decide),
   (claim_C5 constModel true).2 ("short".toList) [] initStore (by decide)
     (by decide) (by decide)⟩

/-- C6: in the feedback phase a `FeedbackRecord` is appended if and only if
the user answers with the negative-confirmation token and then supplies a
corrected label that normalizes to one of the two recognized values: on a
valid correction `countFeedback` grows by exactly one and the stored
`actual_label` is the normalized supplied label (equal to the supplied
label whenever that is itself one of the two recognized values); on an
unrecognized label the invalid-label error is reported and nothing is
written; on any non-negative answer nothing is written. -/
theorem claim_C6 (m : TrainedModel) (line fb lab : Str) (st : Store)
    (p : Label) (c : ℚ)
    (hq : pyLower (pyStrip line) ≠ quitTok)
    (hr : pyLower (pyStrip line) ≠ reportTok)
    (h10 : 10 ≤ (pyStrip line).length)
    (hok : analyze_email m (pyStrip line) = .ok (p, c)) :
    (pyLower fb = nTok →
      (pyLower (pyStrip lab) = phishTok ∨
        pyLower (pyStrip lab) = legitTok) →
      (runLoop m true [line, fb, lab] st).store.false_positives =
        st.false_positives ++ [⟨pyStrip line, pyLower (pyStrip lab)⟩] ∧
      (runLoop m true [line, fb, lab] st).store.false_positives.length =
        st.false_positives.length + 1) ∧
    (pyLower fb = nTok →
      ¬ (pyLower (pyStrip lab) = phishTok ∨
        pyLower (pyStrip lab) = legitTok) →
      (runLoop m true [line, fb, lab] st).store.false_positives =
        st.false_positives ∧
      Output.invalidLabel ∈ (runLoop m true [line, fb, lab] st).output) ∧
    (pyLower fb ≠ nTok →
      (runLoop m true [line, fb] st).store.false_positives =
        st.false_positives) ∧
    ((lab = phishTok ∨ lab = legitTok) → pyLower (pyStrip lab) = lab) := by
  have hne := pyStrip_ne_nil_of_len h10
  have hlen : ¬ (pyStrip line).length < 10 := by omega
  refine ⟨?_, ?_, ?_, ?_⟩
  · intro hfb hlab
    rw [runLoop_ok_fb_n_valid m line fb lab [] st p c hq hr hne hlen hok
      hfb hlab, withOut_store, runLoop_nil]
    constructor
    · show (addFeedback _ _).false_positives = _
      rw [addFeedback_fps, save_to_db_fps]
    · show (addFeedback _ _).false_positives.length = _
      rw [addFeedback_fps, save_to_db_fps]
      simp
  · intro hfb hlab
    rw [runLoop_ok_fb_n_invalid m true line fb lab [] st p c hq hr hne hlen
      hok hfb hlab]
    constructor
    · rw [withOut_store, runLoop_nil]
      exact save_to_db_fps true (pyStrip line) p.toStr c st
    · rw [withOut_output]
      simp
  · intro hfb
    rw [runLoop_ok_fb_other m true line fb [] st p c hq hr hne hlen hok hfb,
      withOut_store, runLoop_nil]
    exact save_to_db_fps true (pyStrip line) p.toStr c st
  · intro h
    rcases h with h | h <;> subst h <;> decide

attribute [local semireducible] Rat.mul Rat.inv Rat.add Rat.sub in
/-- C6 witness: answering `'n'` and supplying `legitimate` after a concrete
prediction appends exactly one feedback record with that label. -/
theorem claim_C6_witness :
    (runLoop constModel true
        ["hello world!".toList, "n".toList, "legitimate".toList]
        initStore).store.false_positives =
      initStore.false_positives ++
        [⟨pyStrip ("hello world!".toList),
          pyLower (pyStrip ("legitimate".toList))⟩] ∧
    (runLoop constModel true
        ["hello world!".toList, "n".toList, "legitimate".toList]
        initStore).store.false_positives.length =
      initStore.false_positives.length + 1 :=
  (claim_C6 constModel ("hello world!".toList) ("n".toList)
      ("legitimate".toList) initStore .phishing 75 (by decide) (by decide)
      (by decide) (by decide)).1 (by decide) (by decide)

/-- C9: `analyze_email` is a pure function of the text and the trained
model: it is deterministic (equal texts give equal results), and analysing
the same text twice in one session writes two identical detection records
— same prediction and same confidence — while the analysis itself mutates
nothing else in the store (the feedback log is untouched). -/
theorem claim_C9 (m : TrainedModel) (line fb : Str) (st : Store)
    (p : Label) (c : ℚ)
    (hq : pyLower (pyStrip line) ≠ quitTok)
    (hr : pyLower (pyStrip line) ≠ reportTok)
    (h10 : 10 ≤ (pyStrip line).length)
    (hok : analyze_email m (pyStrip line) = .ok (p, c))
    (hfb : pyLower fb ≠ nTok) :
    (∀ t₁ t₂ : Str, t₁ = t₂ → analyze_email m t₁ = analyze_email m t₂) ∧
    (runLoop m true [line, fb, line, fb] st).store.detections =
      st.detections ++ [⟨pyStrip line, p.toStr, c⟩,
        ⟨pyStrip line, p.toStr, c⟩] ∧
    (runLoop m true [line, fb, line, fb] st).store.false_positives =
      st.false_positives := by
  have hne := pyStrip_ne_nil_of_len h10
  have hlen : ¬ (pyStrip line).length < 10 := by omega
  have hsave := save_to_db_true (pyStrip line) p.toStr c st hne
    (Label.toStr_ne_nil p)
  refine ⟨fun t₁ t₂ ht => by rw [ht], ?_, ?_⟩
  · rw [runLoop_ok_fb_other m true line fb [line, fb] st p c hq hr hne hlen
      hok hfb, withOut_store,
      runLoop_ok_fb_other m true line fb [] _ p c hq hr hne hlen hok hfb,
      withOut_store, runLoop_nil]
    rw [hsave]
    have hsave2 := save_to_db_true (pyStrip line) p.toStr c
      ({ st with detections :=
          st.detections ++ [⟨pyStrip line, p.toStr, c⟩] }) hne
      (Label.toStr_ne_nil p)
    show (save_to_db true (pyStrip line) p.toStr c
      ({ st with detections :=
          st.detections ++ [⟨pyStrip line, p.toStr, c⟩] })).1.detections = _
    rw [hsave2]
    show (st.detections ++ [⟨pyStrip line, p.toStr, c⟩]) ++
      [⟨pyStrip line, p.toStr, c⟩] = _
    rw [List.append_assoc]
    rfl
  · rw [runLoop_ok_fb_other m true line fb [line, fb] st p c hq hr hne hlen
      hok hfb, withOut_store,
      runLoop_ok_fb_other m true line fb [] _ p c hq hr hne hlen hok hfb,
      withOut_store, runLoop_nil, save_to_db_fps, save_to_db_fps]

attribute [local semireducible] Rat.mul Rat.inv Rat.add Rat.sub in
/-- C9 witness: analysing the same concrete text twice in one session
appends two identical records. -/
theorem claim_C9_witness :
    (runLoop constModel true
        ["hello world!".toList, "y".toList, "hello world!".toList,
          "y".toList] initStore).store.detections =
      initStore.detections ++
        [⟨pyStrip ("hello world!".toList), Label.toStr .phishing, 75⟩,
         ⟨pyStrip ("hello world!".toList), Label.toStr .phishing, 75⟩] :=
  (claim_C9 constModel ("hello world!".toList) ("y".toList) initStore
      .phishing 75 (by decide) (by decide) (by decide) (by decide)
      (by decide)).2.1

/-- C10: every detection record written during the interactive session
stores text that is already stripped of surrounding whitespace, of length
between 10 and 1000 characters, with a prediction that is one of the two
label values — the invariant of the stored detections log. -/
theorem claim_C10 (m : TrainedModel) (dbOk : Bool) (inputs : List Str) :
    ∀ r ∈ (runSession m dbOk inputs).store.detections, goodDetection r := by
  intro r hr
  rw [runSession_detections] at hr
  rcases (runLoop_inv m dbOk inputs initStore).2.1 r hr with hmem | hg
  · exact absurd hmem (by simp [initStore])
  · exact hg

attribute [local semireducible] Rat.mul Rat.inv Rat.add Rat.sub in
/-- C10 witness: the record written for a concrete session satisfies the
invariant. -/
theorem claim_C10_witness :
    goodDetection ⟨"hello world!".toList, phishTok, 75⟩ :=
  claim_C10 constModel true ["hello world!".toList, "y".toList]
    ⟨"hello world!".toList, phishTok, 75⟩ (by decide)

end PhishDetector
